import Mathlib

/-!
Verification of the article-screening backend (task execution engine).

This file shallowly embeds the parts of the backend that the claims are
about, translated from the Python source:

* `api/services/llm.py` — the LLM client's retry loop (`_call_ollama`),
  the response normaliser (`_extract_json`, `_validate_decisions` and the
  field-coercion loop), with the score threshold 60;
* `api/services/llm_part/json_utils.py` — `extract_json`;
* `api/routes/cancel_task.py` — the cancel endpoint;
* `worker/tasks.py` — `TaskProcessor` (`acquire_task_lock`,
  `release_task_lock`, `process`, `_mark_task_error`).

Machine floats of the source are modelled by `Rat` (all score arithmetic in
the claims is exact small-decimal arithmetic), Python exceptions by
`Except`/`Option`, MongoDB documents by Lean structures, and the store by a
single-task `World` record mutated by explicit state passing.  `json.loads`
is a black-box parameter (`String → Except Unit JVal`).
-/

namespace Screening

/-- JSON values as produced by `json.loads`.  Numbers are modelled by `Rat`
(the source manipulates Python floats; every score in the claims is a small
exact decimal). -/
inductive JVal where
  | jnull
  | jbool (b : Bool)
  | jnum (q : Rat)
  | jstr (s : String)
  | jarr (xs : List JVal)
  | jobj (fields : List (String × JVal))
deriving Repr

/-- Python `s.strip()`: drop whitespace from both ends.  (Implemented on
the character list so that it evaluates by definitional unfolding.) -/
def pyTrim (s : String) : String :=
  String.mk (((s.data.dropWhile Char.isWhitespace).reverse.dropWhile
    Char.isWhitespace).reverse)

/-- Python `s.lower()` (ASCII case, all the claims exercise). -/
def pyLower (s : String) : String :=
  String.mk (s.data.map Char.toLower)

/-- Character-list worker for `strStarts`. -/
def strStartsAux : List Char → List Char → Bool
  | _, [] => true
  | [], _ :: _ => false
  | c :: s, p :: ps => if c == p then strStartsAux s ps else false

/-- Does `s` start with `pre`?  (`str.startswith`.) -/
def strStarts (s pre : String) : Bool :=
  strStartsAux s.data pre.data

/-- Does `s` end with `suf`?  (`str.endswith`.) -/
def strEnds (s suf : String) : Bool :=
  strStartsAux s.data.reverse suf.data.reverse

/-- Drop the first `n` characters of `s` (Python `s[n:]`). -/
def strDrop (s : String) (n : Nat) : String :=
  String.mk (s.data.drop n)

/-- Drop the last `n` characters of `s` (Python `s[:-n]`). -/
def strDropRight (s : String) (n : Nat) : String :=
  String.mk (s.data.take (s.data.length - n))

/-- Python `s.replace("%", "")`: remove every percent sign. -/
def removePercent (s : String) : String :=
  String.mk (s.data.filter (fun c => c != '%'))

/-- Python truthiness `bool(v)` of a JSON value. -/
def pyBool : JVal → Bool
  | .jnull => false
  | .jbool b => b
  | .jnum q => if q = 0 then false else true
  | .jstr s => if s = "" then false else true
  | .jarr xs => if xs.isEmpty then false else true
  | .jobj fs => if fs.isEmpty then false else true

/-- Digits of a numeral, most significant first, to a natural number. -/
def digitsVal (cs : List Char) : Nat :=
  cs.foldl (fun a c => a * 10 + (c.toNat - 48)) 0

/-- Model of Python `float(s)` on a string: optional surrounding whitespace,
optional sign, decimal digits with an optional fractional part.  (Exponents
and `inf`/`nan` literals are not exercised by any claim.)  `none` models the
`ValueError` raised on anything else, e.g. `float("40%")`. -/
def pyParseFloat (s : String) : Option Rat :=
  let cs := (pyTrim s).data
  let signAndRest : Int × List Char :=
    match cs with
    | '+' :: r => (1, r)
    | '-' :: r => (-1, r)
    | r => (1, r)
  let sign := signAndRest.1
  let cs := signAndRest.2
  let intDigits := cs.takeWhile Char.isDigit
  let rest := cs.dropWhile Char.isDigit
  match rest with
  | [] =>
    if intDigits.isEmpty then none
    else some (mkRat (sign * Int.ofNat (digitsVal intDigits)) 1)
  | '.' :: r2 =>
    let fracDigits := r2.takeWhile Char.isDigit
    let rest2 := r2.dropWhile Char.isDigit
    if rest2.isEmpty && !(intDigits.isEmpty && fracDigits.isEmpty) then
      some (mkRat
        (sign * Int.ofNat (digitsVal intDigits * 10 ^ fracDigits.length +
          digitsVal fracDigits))
        (10 ^ fracDigits.length))
    else none
  | _ => none

/-- Model of Python `float(v)` on a JSON value.  `none` models the
`ValueError`/`TypeError` raised on unconvertible values. -/
def pyFloat : JVal → Option Rat
  | .jnum q => some q
  | .jbool b => some (if b then 1 else 0)
  | .jstr s => pyParseFloat s
  | _ => none

/-- Model of Python `str(v)`; only the string case is exercised by the
claims, the others approximate Python's rendering. -/
def pyStr : JVal → String
  | .jstr s => s
  | .jbool true => "True"
  | .jbool false => "False"
  | .jnull => "None"
  | .jnum q => toString q
  | .jarr _ => "[...]"
  | .jobj _ => "[object]"

/-- Python dict assignment `d[k] = v`: replaces in place (dicts preserve
insertion order), appends if the key is new. -/
def dictSet (fs : List (String × JVal)) (k : String) (v : JVal) :
    List (String × JVal) :=
  if fs.any (fun p => p.1 == k) then
    fs.map (fun p => if p.1 == k then (p.1, v) else p)
  else fs ++ [(k, v)]

/-- Model of `round(q, 1)` of the source (one decimal place; tie behaviour follows
Mathlib's `round`, which no claim exercises). -/
def round1 (q : Rat) : Rat := mkRat (round (mkRat (q.num * 10) q.den)) 10

/-- The threshold `LLMService._score_threshold` (= 60). -/
def scoreThreshold : Rat := 60

/-- Model of `LLMService._validate_decisions` (llm.py 224-290): for each per-article
record holding both `relevanceScore` and `included`, convert the score with
`float(...)` — skipping the record entirely when that raises, e.g. on a
`"40%"` string — round it, read the current decision, and force
`included = (score ≥ threshold)`, swapping an `Included:`/`Excluded:` reason
tag when the decision flips. -/
def validate_decisions (entries : List (String × JVal)) :
    List (String × JVal) :=
  entries.map fun p =>
    match p.2 with
    | .jobj fields =>
      match fields.lookup "relevanceScore", fields.lookup "included" with
      | some scoreV, some includedV =>
        match pyFloat scoreV with
        | none => p
        | some q =>
          let score := round1 q
          let current : Bool :=
            match includedV with
            | .jstr s => pyLower s == "true"
            | other => pyBool other
          let correct : Bool := decide (scoreThreshold ≤ score)
          if current == correct then p
          else
            let fields1 := dictSet fields "included" (.jbool correct)
            let fields2 :=
              match fields1.lookup "reason" with
              | some (.jstr r) =>
                let r' :=
                  if strStarts r "Included:" && !correct then
                    "Excluded:" ++ strDrop r 9
                  else if strStarts r "Excluded:" && correct then
                    "Included:" ++ strDrop r 9
                  else r
                dictSet fields1 "reason" (.jstr r')
              | _ => fields1
            (p.1, .jobj fields2)
      | _, _ => p
    | _ => p

/-- The per-record required-field check and type coercion of
`LLMService._call_ollama` (llm.py 157-197), applied after
`_validate_decisions`: records must be dicts with `included`, `reason` and
`relevanceScore`; `included` strings `"true"`/`"false"` become booleans,
`reason` is coerced to a string, a score string loses any `%` sign and is
parsed (defaulting to 0 on failure), and the score is clamped to [0,100]. -/
def coerceEntry (p : String × JVal) : Except String (String × JVal) :=
  match p.2 with
  | .jobj fields =>
    if (fields.lookup "included").isNone ||
       (fields.lookup "reason").isNone ||
       (fields.lookup "relevanceScore").isNone then
      .error ("Missing required fields for article " ++ p.1)
    else
      let fields :=
        match fields.lookup "included" with
        | some (.jstr s) => dictSet fields "included" (.jbool (pyLower s == "true"))
        | some (.jbool _) => fields
        | some other => dictSet fields "included" (.jbool (pyBool other))
        | none => fields
      let fields :=
        match fields.lookup "reason" with
        | some (.jstr _) => fields
        | some other => dictSet fields "reason" (.jstr (pyStr other))
        | none => fields
      let fields :=
        match fields.lookup "relevanceScore" with
        | some (.jstr s) =>
          match pyParseFloat (pyTrim (removePercent s)) with
          | some q => dictSet fields "relevanceScore" (.jnum q)
          | none => dictSet fields "relevanceScore" (.jnum 0)
        | some (.jnum _) => fields
        | some (.jbool _) => fields
        | some other =>
          match pyFloat other with
          | some q => dictSet fields "relevanceScore" (.jnum q)
          | none => dictSet fields "relevanceScore" (.jnum 0)
        | none => fields
      let fields :=
        match fields.lookup "relevanceScore" with
        | some sv =>
          match pyFloat sv with
          | some q => dictSet fields "relevanceScore" (.jnum (max 0 (min 100 q)))
          | none => fields
        | none => fields
      .ok (p.1, .jobj fields)
  | _ => .error ("Result for article " ++ p.1 ++ " must be a dictionary")

/-- The validation performed by `LLMService._call_ollama` on a successfully
extracted JSON value (llm.py 144-201): fail on a falsy or non-dict root,
run `_validate_decisions`, then coerce every record. -/
def call_ollama_validate (j : JVal) : Except String (List (String × JVal)) :=
  if pyBool j = false then
    .error "Could not extract valid JSON from response"
  else
    match j with
    | .jobj entries => (validate_decisions entries).mapM coerceEntry
    | _ => .error "Response must be a dictionary"

/-- A validated screening decision as persisted by the worker
(`screening_results` document payload). -/
structure Decision where
  included : Bool
  reason : String
  relevanceScore : Rat
deriving DecidableEq, Repr

/-- Field lookup as seen through Python's `is None` test: a key bound to
JSON `null` behaves like an absent key. -/
def lookupNonNull (fields : List (String × JVal)) (k : String) : Option JVal :=
  match fields.lookup k with
  | some .jnull => none
  | some v => some v
  | none => none

/-- The re-validation loop of `TaskProcessor._screen_batch` (tasks.py
353-382) applied to the JSON the LLM service returned: non-dict records are
skipped; `included` falls back to the negation of `excluded` and then to
`False`; `reason` defaults to `""`; the score is converted with `float`
(raising on failure) and clamped to [0,100]. -/
def screen_batch_validate (j : JVal) : Except String (List (String × Decision)) :=
  match j with
  | .jobj entries =>
    entries.foldlM
      (fun acc p =>
        match p.2 with
        | .jobj fields =>
          let includedB : Bool :=
            match lookupNonNull fields "included" with
            | some v => pyBool v
            | none =>
              match lookupNonNull fields "excluded" with
              | some ev => !(pyBool ev)
              | none => false
          let reason := pyStr ((fields.lookup "reason").getD (.jstr ""))
          match pyFloat ((fields.lookup "relevanceScore").getD (.jnum 0)) with
          | none => .error "could not convert relevanceScore to float"
          | some q =>
            let q := if 0 ≤ q ∧ q ≤ 100 then q else max 0 (min 100 q)
            .ok (acc ++ [(p.1, Decision.mk includedB reason q)])
        | _ => .ok acc)
      ([] : List (String × Decision))
  | _ => .error "Results must be a dictionary"

/-- The full normalisation pipeline a raw LLM batch response goes through
before its decisions are persisted: `_call_ollama`'s validation (which
serialises the repaired object back to JSON) followed by `_screen_batch`'s
re-validation of the parsed result. -/
def screen_pipeline (j : JVal) : Except String (List (String × Decision)) := do
  let entries ← call_ollama_validate j
  screen_batch_validate (.jobj entries)

/-- The S3 response record of the claim: the LLM answers
`"id7" ↦ (included: true, reason: "Included: matches criteria",
relevanceScore: "40%")`. -/
def s3_response : JVal :=
  .jobj [("id7", .jobj
    [("included", .jbool true),
     ("reason", .jstr "Included: matches criteria"),
     ("relevanceScore", .jstr "40%")])]

/-! ## `extract_json` (json_utils.py 4-28) -/

/-- The `'\x7b'` character. -/
def openBrace : Char := Char.ofNat 123

/-- The `'\x7d'` character. -/
def closeBrace : Char := Char.ofNat 125

/-- Python `s.find(c)`: index of the first occurrence, `-1` if absent. -/
def pyFind (t : String) (c : Char) : Int :=
  match t.data.findIdx? (· == c) with
  | some i => Int.ofNat i
  | none => -1

/-- Python `s.rfind(c)`: index of the last occurrence, `-1` if absent. -/
def pyRFind (t : String) (c : Char) : Int :=
  match t.data.reverse.findIdx? (· == c) with
  | some i => Int.ofNat (t.data.length - 1 - i)
  | none => -1

/-- Python slice `t[a:b]` for the non-negative indices used here. -/
def pySlice (t : String) (a b : Int) : String :=
  String.mk ((t.data.drop a.toNat).take (b - a).toNat)

/-- The fence-stripping step of `extract_json`: drop a leading
` ```json ` or ` ``` ` fence, a trailing ` ``` ` fence, and re-strip. -/
def stripFences (t : String) : String :=
  let t1 :=
    if strStarts t "```json" then strDrop t 7
    else if strStarts t "```" then strDrop t 3
    else t
  let t2 := if strEnds t1 "```" then strDropRight t1 3 else t1
  pyTrim t2

/-- The brace-boundary condition `0 <= start < end` of `extract_json`. -/
def bracketOk (t : String) : Prop :=
  0 ≤ pyFind t openBrace ∧ pyFind t openBrace < pyRFind t closeBrace

instance (t : String) : Decidable (bracketOk t) := by
  unfold bracketOk; infer_instance

/-- The substring `t[start:end+1]` between the first `\x7b` and the last
`\x7d`. -/
def bracketSubstr (t : String) : String :=
  pySlice t (pyFind t openBrace) (pyRFind t closeBrace + 1)

/-- Model of `extract_json` (json_utils.py): try the whole trimmed string as JSON;
on a decode error strip markdown fences, locate the outermost braces and
retry on the enclosed substring; return the empty dict if that also fails.
`loads` is the black-box `json.loads`, whose only failure is the decode
error both `except` clauses catch; an uncaught exception would surface as
an `Except.error` of the result. -/
def extract_json (loads : String → Except Unit JVal) (content : String) :
    Except Unit JVal :=
  let text := pyTrim content
  match loads text with
  | .ok j => .ok j
  | .error _ =>
    let t := stripFences text
    if bracketOk t then
      match loads (bracketSubstr t) with
      | .ok j => .ok j
      | .error _ => .ok (.jobj [])
    else .ok (.jobj [])

/-- A `json.loads` stand-in that always reports a decode error, for
exercising the failure paths on concrete inputs. -/
def loadsFail : String → Except Unit JVal := fun _ => .error ()

/-! ## The cancel endpoint (cancel_task.py 9-53) -/

/-- Task status values (`api/models.py`). -/
inductive TaskStatus where
  | running
  | done
  | error
  | paused
  | full_screening
deriving DecidableEq, Repr

/-- The `progress` subdocument of a task. -/
structure Progress where
  total : Nat
  current : Nat
deriving DecidableEq, Repr

/-- The value stored under `remainingArticles`.  The field is dynamically
typed in the store: `create_task` and `request_full_screening` write a list
of article ids, while `TaskProcessor.process` writes an integer count. -/
inductive RemVal where
  | ids (l : List String)
  | count (n : Nat)
  | null
deriving DecidableEq, Repr

/-- A task document (fields the claims are about). -/
structure TaskDoc where
  status : TaskStatus
  progress : Progress
  processingLock : Option String := none
  processingStartedAt : Option Nat := none
  error : Option String := none
  completedAt : Option Nat := none
  remainingArticles : RemVal := .null
deriving DecidableEq, Repr

/-- An HTTP response, reduced to what the claims observe. -/
structure Resp where
  statusCode : Nat
  success : Bool
deriving DecidableEq, Repr

/-- The cancel endpoint `cancel_task` (cancel_task.py): look the task up;
a missing task raises `HTTPException(404)` and a task already `done` or
`error` raises `HTTPException(400)` — both inside the `try`, whose
`except Exception` clause catches them (FastAPI's `HTTPException` is an
`Exception`) and re-raises `HTTPException(500, str(e))`; otherwise an
unconditional `update_one` sets `status="error"`,
`error="Task cancelled by user"` and `completedAt`, and the endpoint
returns success.  The result pairs the response with the task's state
after the call. -/
def cancel_task (t? : Option TaskDoc) (now : Nat) : Resp × Option TaskDoc :=
  match t? with
  | none => (⟨500, false⟩, none)
  | some t =>
    if t.status = .done ∨ t.status = .error then
      (⟨500, false⟩, some t)
    else
      (⟨200, true⟩, some { t with
        status := .error,
        error := some "Task cancelled by user",
        completedAt := some now })

/-! ## The LLM client's retry loop (llm.py 109-212) -/

/-- The observable outcome of one HTTP attempt against the Ollama endpoint:
a request timeout (`httpx.TimeoutException`) or a response with a status
code and a body. -/
inductive LLMAttempt (β : Type) where
  | timeout
  | resp (status : Nat) (body : β)
deriving DecidableEq, Repr

/-- The trace of one `_call_ollama` call: HTTP attempts actually made, the
back-off sleeps (in seconds, in order) between them, and the final result. -/
structure CallTrace where
  attemptsMade : Nat
  sleeps : List Nat
  result : Except String String
deriving Repr

/-- The back-off the source sleeps before retrying attempt `i` (0-based):
`1 * (attempt + 1)` seconds after a timeout, `10 * (attempt + 1)` seconds
after a retryable response. -/
def backoffFor {β : Type} (o : LLMAttempt β) (i : Nat) : Nat :=
  match o with
  | .timeout => 1 * (i + 1)
  | .resp _ _ => 10 * (i + 1)

/-- The body of `for attempt in range(self._max_retries + 1)` (llm.py
109-212), one recursive step per iteration.  `oracle i` is the outcome of
HTTP attempt `i`; `handle` is the rest of the loop body on a non-404
response (parsing the envelope, extracting and validating JSON), whose
exceptions propagate out of the loop uncaught.  A 404 sleeps
`10 * (attempt + 1)` seconds and retries while attempts remain, then
raises; a timeout sleeps `1 * (attempt + 1)` seconds and retries while
attempts remain, then raises.  The fuel argument equals the remaining
iterations of the bounded `for` loop. -/
def callGo {β : Type} (handle : β → Except String String) (maxRetries : Nat)
    (oracle : Nat → LLMAttempt β) :
    Nat → Nat → List Nat → CallTrace
  | a, 0, acc => ⟨a, acc, .error "All retry attempts failed"⟩
  | a, fuel + 1, acc =>
    match oracle a with
    | .timeout =>
      if a < maxRetries then
        callGo handle maxRetries oracle (a + 1) fuel (acc ++ [1 * (a + 1)])
      else ⟨a + 1, acc, .error "Ollama API request timed out"⟩
    | .resp status body =>
      if status = 404 then
        if a < maxRetries then
          callGo handle maxRetries oracle (a + 1) fuel (acc ++ [10 * (a + 1)])
        else ⟨a + 1, acc, .error "Ollama API error: 404"⟩
      else ⟨a + 1, acc, handle body⟩

/-- Model of `LLMService._call_ollama`'s request loop, started at attempt 0 with
`maxRetries + 1` iterations available. -/
def call_ollama {β : Type} (handle : β → Except String String)
    (maxRetries : Nat) (oracle : Nat → LLMAttempt β) : CallTrace :=
  callGo handle maxRetries oracle 0 (maxRetries + 1) []

/-- A retried attempt outcome: the only two the source retries on. -/
def retryable {β : Type} (o : LLMAttempt β) : Prop :=
  o = .timeout ∨ ∃ b, o = .resp 404 b

/-- Concrete attempt oracle for the C7 counterexample: the first attempt
gets a 500 response with an unusable body, every later attempt a 200
response with a good body. -/
def oracle500 : Nat → LLMAttempt Bool :=
  fun i => if i = 0 then .resp 500 false else .resp 200 true

/-- Concrete body handler for the C7 counterexample: the good body parses,
the bad one raises the source's format error. -/
def handle500 : Bool → Except String String :=
  fun b => if b then .ok "content" else .error "Invalid response format from Ollama"

/-! ## `TaskProcessor` (worker/tasks.py) -/

/-- The setting `ARTICLE_LIMIT` (config.py, default 10). -/
def ARTICLE_LIMIT : Nat := 10

/-- The setting `BATCH_SIZE` (config.py, default 2). -/
def BATCH_SIZE : Nat := 2

/-- The setting `MAX_RETRIES` (config.py, default 2). -/
def MAX_RETRIES : Nat := 2

/-- An article document attached to the task. -/
structure Article where
  id : String
  title : String := ""
  abstract : String := ""
deriving DecidableEq, Repr

/-- A persisted `screening_results` document (single task, so the
`taskId` key is implicit). -/
structure SResult where
  articleId : String
  included : Bool
  reason : String
  relevanceScore : Rat
deriving DecidableEq, Repr

/-- The store restricted to one task: its document, its articles in
insertion order, and its screening results. -/
structure World where
  task : TaskDoc
  articles : List Article
  results : List SResult
deriving DecidableEq, Repr

/-- Model of `TaskProcessor.acquire_task_lock` (tasks.py 29-54): a single
`find_one_and_update` matching the task only when `status == running` and
`processingLock` is absent, setting the lock and `processingStartedAt`;
returns the updated world on a match and `none` otherwise. -/
def acquire_task_lock (w : World) (lockId : String) (now : Nat) :
    Option World :=
  if w.task.status = .running ∧ w.task.processingLock = none then
    some { w with task := { w.task with
      processingLock := some lockId,
      processingStartedAt := some now } }
  else none

/-- Model of `TaskProcessor.release_task_lock` (tasks.py 56-69): an `update_one`
filtered on `_id` alone that `$unset`s `processingLock` and
`processingStartedAt`.  `selfLock` is the calling processor's own lock id
(`self._task_lock`), which the update does not consult. -/
def release_task_lock (_selfLock : String) (w : World) : World :=
  { w with task := { w.task with
      processingLock := none,
      processingStartedAt := none } }

/-- Model of `TaskProcessor._mark_task_error` (tasks.py 311-330): set
`status=error`, the error message and `completedAt`, and unset the lock
fields. -/
def mark_task_error (w : World) (msg : String) (now : Nat) : World :=
  { w with task := { w.task with
      status := .error,
      error := some msg,
      completedAt := some now,
      processingLock := none,
      processingStartedAt := none } }

/-- The bookkeeping update `process` issues after loading the articles
(tasks.py 119-129): `progress.total := articles_to_process`,
`progress.current := 0`, `remainingArticles` := the count of deferred
articles, and `error := None`. -/
def reset_task_bookkeeping (w : World) (articlesToProcess totalCount : Nat) :
    World :=
  { w with task := { w.task with
      progress := ⟨articlesToProcess, 0⟩,
      remainingArticles := .count (totalCount - articlesToProcess),
      error := none } }

/-- Upsert into `screening_results` keyed on the article id (tasks.py
223-230). -/
def upsert (rs : List SResult) (r : SResult) : List SResult :=
  if rs.any (fun x => x.articleId == r.articleId) then
    rs.map (fun x => if x.articleId == r.articleId then r else x)
  else rs ++ [r]

/-- The result document built for one decided article (tasks.py 209-220). -/
def mkDoc (a : Article) (d : Decision) : SResult :=
  ⟨a.id, d.included, d.reason, d.relevanceScore⟩

/-- How the processing loop of `process` ends. -/
inductive LoopRes where
  /-- `total_processed` reached the planned count; finalisation follows. -/
  | finished (tp : Nat) (w : World)
  /-- An early `return` inside the loop (lock lost, status flipped to
  `error`, or a progress update that modified nothing). -/
  | halted (w : World)
  /-- A batch exception survived `MAX_RETRIES` re-entries and propagates
  to the outer handler. -/
  | failed (msg : String) (w : World)
  /-- The loop would run forever (fuel exhausted in the model). -/
  | diverged
deriving Repr

/-- The `while total_processed < len(articles)` loop of `process`
(tasks.py 134-263), one recursive step per iteration.  `screen` models
`_screen_batch` on one batch: `none` is an exception, `some m` the
validated decision map returned (possibly missing ids or empty).  Each
iteration re-checks the lock and the status, screens the next
`BATCH_SIZE` slice, upserts a result per decided article, and bumps
`progress.current`, returning early when that update modifies nothing.
A batch exception sleeps and re-enters at most `MAX_RETRIES` times. -/
def processLoop (screen : List Article → Option (List (String × Decision)))
    (articles : List Article) (lockId : String) :
    Nat → Nat → Nat → World → LoopRes
  | 0, _, _, _ => .diverged
  | fuel + 1, tp, rc, w =>
    if articles.length ≤ tp then .finished tp w
    else if w.task.processingLock ≠ some lockId then .halted w
    else if w.task.status = .error then .halted w
    else
      let batch := (articles.drop tp).take BATCH_SIZE
      match screen batch with
      | none =>
        if MAX_RETRIES < rc + 1 then .failed "batch error" w
        else processLoop screen articles lockId fuel tp (rc + 1) w
      | some m =>
        if m.isEmpty then processLoop screen articles lockId fuel tp rc w
        else
          let decided := batch.filterMap
            (fun a => (m.lookup a.id).map (fun d => (a, d)))
          let newResults :=
            decided.foldl (fun rs p => upsert rs (mkDoc p.1 p.2)) w.results
          let w1 := { w with results := newResults }
          let tp' := tp + decided.length
          if w1.task.progress.current = tp' then .halted w1
          else processLoop screen articles lockId fuel tp' rc
            { w1 with task := { w1.task with
                progress := { w1.task.progress with current := tp' } } }

/-- Model of `TaskProcessor.process` (tasks.py 71-309).  In sequence: acquire the
per-task lock (aborting silently on failure), re-read the task and abort
unless `status == running`, error out a task with no articles, plan
`min(total, ARTICLE_LIMIT)` articles, reset the bookkeeping fields, run
the batch loop, and finalise — the final `update_one` sets the status to
`done`, or to `paused` when articles were deferred, and sets
`completedAt`, `progress.current` and the `remainingArticles` count while
unsetting the lock.  An exception escaping the loop is caught and the
task is marked `error`; the `finally` block always calls
`release_task_lock`.  Returns `none` only when the loop diverges (the
bounded fuel of the model runs out). -/
def process (screen : List Article → Option (List (String × Decision)))
    (lockId : String) (now : Nat) (w : World) : Option World :=
  let body : Option World :=
    match acquire_task_lock w lockId now with
    | none => some w
    | some w1 =>
      if w1.task.status ≠ .running then some w1
      else
        let totalCount := w1.articles.length
        if totalCount = 0 then
          some (mark_task_error w1 "No articles found for task" now)
        else
          let articlesToProcess := min totalCount ARTICLE_LIMIT
          let articles := w1.articles.take articlesToProcess
          let w2 := reset_task_bookkeeping w1 articlesToProcess totalCount
          match processLoop screen articles lockId
              (articles.length + MAX_RETRIES + 2) 0 0 w2 with
          | .diverged => none
          | .halted w3 => some w3
          | .failed msg w3 => some (mark_task_error w3 msg now)
          | .finished tp w3 =>
            let remaining := totalCount - articlesToProcess
            let finalStatus : TaskStatus :=
              if 0 < remaining then .paused else .done
            some { w3 with task := { w3.task with
              status := finalStatus,
              completedAt := some now,
              progress := { w3.task.progress with current := tp },
              remainingArticles := .count remaining,
              processingLock := none,
              processingStartedAt := none } }
  body.map (release_task_lock lockId)

/-- A `_screen_batch` oracle that decides every requested article:
`d` gives each article id its validated decision. -/
def screenAll (d : String → Decision) :
    List Article → Option (List (String × Decision)) :=
  fun batch => some (batch.map (fun a => (a.id, d a.id)))

/-- The constant decision used in the concrete scenario runs. -/
def dIncl : String → Decision := fun _ => ⟨true, "Included: ok", 80⟩

/-- The 25 attached articles of scenario S1: ids `a1` … `a25`. -/
def s1Articles : List Article :=
  (List.range 25).map (fun i => { id := "a" ++ toString (i + 1) })

/-- A fresh `running` task as `create_task` writes it for S1
(`progress = (25, 0)`). -/
def s1Task : TaskDoc :=
  { status := .running, progress := ⟨25, 0⟩, remainingArticles := .ids [] }

/-- The S1 world: the fresh task with its 25 articles and no results. -/
def s1World : World := ⟨s1Task, s1Articles, []⟩

/-- The deferred ids `a11` … `a25` that claim C4 says `remainingArticles`
holds after the initial cap. -/
def s1DeferredIds : List String :=
  (List.range 15).map (fun i => "a" ++ toString (i + 11))

/-- A task sitting in `full_screening` after a `request_full_screening`
call, with ten results already recorded. -/
def s2Task : TaskDoc :=
  { status := .full_screening, progress := ⟨10, 10⟩,
    remainingArticles := .ids s1DeferredIds }

/-- The S2 world handed to the worker: the `full_screening` task, its 25
articles, and the ten results of the initial screening. -/
def s2World : World :=
  ⟨s2Task, s1Articles,
    (List.range 10).map (fun i => ⟨"a" ++ toString (i + 1), true, "Included: ok", 80⟩)⟩

/-! ## Further concrete instances used by the theorems -/

/-- A task in the middle of an initial screening, as the cancel and
release claims need one: `running`, locked by `worker-a`, 3 of 10 done. -/
def midTask : TaskDoc :=
  { status := .running, progress := ⟨10, 3⟩,
    processingLock := some "worker-a", processingStartedAt := some 1 }

/-- A finished task (`status = done`). -/
def doneTask : TaskDoc :=
  { status := .done, progress := ⟨10, 10⟩, completedAt := some 5 }

/-- A `running` task carrying a stale error and previously recorded
progress, about to be re-processed. -/
def staleTask : TaskDoc :=
  { status := .running, progress := ⟨25, 5⟩, error := some "previous failure" }

/-- An attempt oracle that times out on every attempt. -/
def oracleTimeout : Nat → LLMAttempt Bool := fun _ => .timeout

/-! # Theorems -/

/-- C1.  The normalisation pipeline does **not** establish the claimed
reconciliation invariant: on the S3 record
`(included: true, reason: "Included: …", relevanceScore: "40%")` the
percent-string score makes `float(...)` raise inside
`_validate_decisions`, the record is skipped there, and only the later
coercion turns `"40%"` into `40.0` — so the persisted decision keeps
`included = true` and an `Included:` reason although `40 < 60`,
contradicting both `included == (relevance_score ≥ SCORE_THRESHOLD)` and
the claimed S3 output (`included = false`, reason `Excluded:`). -/
theorem c1_reconciliation_skipped_on_percent_score :
    screen_pipeline s3_response =
      .ok [("id7", ⟨true, "Included: matches criteria", 40⟩)] ∧
    ¬ scoreThreshold ≤ (40 : Rat) ∧
    strStarts "Included: matches criteria" "Excluded:" = false := by
  refine ⟨rfl, ?_, rfl⟩
  rw [scoreThreshold]
  norm_num

/-- C2.  `TaskProcessor.process` never processes a `full_screening` task:
`acquire_task_lock` matches only `status == running`, so the lock
acquisition fails, the body returns at once, and the run leaves the
status, the progress and the stored results untouched (the unconditional
`finally` still clears the lock fields).  The task can therefore never
reach `done` this way, contrary to the claim. -/
theorem c2_full_screening_not_processed
    (screen : List Article → Option (List (String × Decision)))
    (lockId : String) (now : Nat) (w : World)
    (h : w.task.status = .full_screening) :
    acquire_task_lock w lockId now = none ∧
    process screen lockId now w = some (release_task_lock lockId w) ∧
    (process screen lockId now w).map
        (fun w' => (w'.task.status, w'.task.progress, w'.results)) =
      some (TaskStatus.full_screening, w.task.progress, w.results) := by
  have hne : ¬ (w.task.status = .running ∧ w.task.processingLock = none) := by
    rw [h]; rintro ⟨hc, -⟩; cases hc
  have hacq : acquire_task_lock w lockId now = none := by
    unfold acquire_task_lock
    exact if_neg hne
  refine ⟨hacq, ?_, ?_⟩
  · unfold process
    rw [hacq]
    rfl
  · unfold process
    rw [hacq]
    simp [release_task_lock, h]

/-- Witness for C2 at the S2 world (`full_screening` task, ten stored
results). -/
theorem c2_full_screening_not_processed_witness :
    s2World.task.status = .full_screening ∧
    process (screenAll dIncl) "L" 99 s2World =
      some (release_task_lock "L" s2World) :=
  ⟨rfl, (c2_full_screening_not_processed (screenAll dIncl) "L" 99 s2World rfl).2.1⟩

/-- C3.  The finalisation update of `process` (tasks.py 277-294) sets
`completedAt` in the same `$set` for **both** final statuses: the S1 run
(25 articles, limit 10) ends `paused` *with* `completedAt` set,
contradicting `status=paused ⇒ completed_at absent`. -/
theorem c3_pause_sets_completedAt :
    (process (screenAll dIncl) "L" 99 s1World).map
        (fun w => (w.task.status, w.task.completedAt)) =
      some (TaskStatus.paused, some 99) ∧
    some (99 : Nat) ≠ none := by
  exact ⟨rfl, by simp⟩

/-- C4 counterexample.  After the S1 run pauses the task,
`remainingArticles` holds the integer count `15` written by `process`
(tasks.py 125, 287) — not the list of 15 deferred article ids the claim
describes (`a11` … `a25`). -/
theorem c4_remaining_articles_count_not_ids :
    (process (screenAll dIncl) "L" 99 s1World).map
        (fun w => w.task.remainingArticles) = some (RemVal.count 15) ∧
    RemVal.count 15 ≠ RemVal.ids s1DeferredIds := by
  exact ⟨rfl, by simp⟩

/-- C5.  `release_task_lock` filters on `_id` alone and `$unset`s the lock
unconditionally: a processor whose own lock id is `worker-b` releasing a
task locked by `worker-a` clears the lock all the same, contrary to the
claimed owner check. -/
theorem c5_release_lock_ignores_owner :
    midTask.processingLock = some "worker-a" ∧
    ("worker-a" : String) ≠ "worker-b" ∧
    (release_task_lock "worker-b" ⟨midTask, [], []⟩).task.processingLock
      = none := by
  exact ⟨rfl, by decide, rfl⟩

/-- C6 counterexample.  Cancelling the already-`done` task does not answer
`409`: the `HTTPException(400)` raised for a terminal status is caught by
the endpoint's blanket `except Exception` and re-raised as a `500`. -/
theorem c6_cancel_terminal_returns_500_not_409 :
    (cancel_task (some doneTask) 7).1.statusCode = 500 ∧
    (cancel_task (some doneTask) 7).1.statusCode ≠ 409 ∧
    (cancel_task (some doneTask) 7).2 = some doneTask := by
  exact ⟨rfl, by decide, rfl⟩

/-- C6 amended.  What `cancel_task` actually does: the status is checked
by a separate read rather than a conditional find-and-modify; a
non-terminal task is transitioned to `error` with reason
"Task cancelled by user" (and `completedAt` set) by an unconditional
`update_one` and the endpoint reports success, while a task already
`done`/`error` surfaces as a `500` response (never `409`) with the task
left unchanged. -/
theorem c6_cancel_separate_check_then_unconditional_update
    (t : TaskDoc) (now : Nat) :
    (t.status ≠ .done → t.status ≠ .error →
      cancel_task (some t) now =
        (⟨200, true⟩, some { t with
          status := .error,
          error := some "Task cancelled by user",
          completedAt := some now })) ∧
    (t.status = .done ∨ t.status = .error →
      (cancel_task (some t) now).1.statusCode = 500 ∧
      (cancel_task (some t) now).2 = some t) := by
  constructor
  · intro h1 h2
    simp only [cancel_task]
    rw [if_neg]
    rintro (hc | hc)
    · exact h1 hc
    · exact h2 hc
  · intro h
    simp only [cancel_task]
    rw [if_pos h]
    exact ⟨rfl, rfl⟩

/-- Witness for the amended C6 at a mid-screening task. -/
theorem c6_cancel_separate_check_then_unconditional_update_witness :
    cancel_task (some midTask) 7 =
      (⟨200, true⟩, some { midTask with
        status := .error,
        error := some "Task cancelled by user",
        completedAt := some 7 }) :=
  (c6_cancel_separate_check_then_unconditional_update midTask 7).1
    (by decide) (by decide)

/-- C7 counterexample.  A `500` response is not retried: with
`MAX_RETRIES = 2` the loop stops after the **first** attempt with the
parse error of the 500 body, although two further attempts — the next one
a good `200` — were available.  (The source checks only `status == 404`;
every other status falls through to parsing, whose exceptions escape the
loop.) -/
theorem c7_no_retry_on_500 :
    call_ollama handle500 2 oracle500 =
      { attemptsMade := 1, sleeps := [],
        result := .error "Invalid response format from Ollama" } ∧
    oracle500 0 = .resp 500 false ∧
    oracle500 1 = .resp 200 true ∧
    handle500 true = .ok "content" := by
  exact ⟨rfl, rfl, rfl, rfl⟩

/-- C10.  For a cancel request naming a missing task or a task already
`done`/`error`, the endpoint responds `500` — never `404`, `400` or `409`
— because the `HTTPException` raised inside the `try` is caught by the
blanket handler and re-raised as a `500`. -/
theorem c10_cancel_missing_or_terminal_is_500
    (t? : Option TaskDoc) (now : Nat)
    (h : t? = none ∨ ∃ t, t? = some t ∧ (t.status = .done ∨ t.status = .error)) :
    (cancel_task t? now).1.statusCode = 500 ∧
    (cancel_task t? now).1.statusCode ≠ 404 ∧
    (cancel_task t? now).1.statusCode ≠ 400 ∧
    (cancel_task t? now).1.statusCode ≠ 409 := by
  have h500 : (cancel_task t? now).1.statusCode = 500 := by
    rcases h with h | ⟨t, ht, hst⟩
    · rw [h]; rfl
    · rw [ht]
      simp only [cancel_task]
      rw [if_pos hst]
  refine ⟨h500, ?_, ?_, ?_⟩ <;> rw [h500] <;> decide

/-- Witness for C10: a missing task and the terminal `doneTask`. -/
theorem c10_cancel_missing_or_terminal_is_500_witness :
    (cancel_task none 7).1.statusCode = 500 ∧
    (cancel_task (some doneTask) 7).1.statusCode = 500 :=
  ⟨(c10_cancel_missing_or_terminal_is_500 none 7 (Or.inl rfl)).1,
   (c10_cancel_missing_or_terminal_is_500 (some doneTask) 7
     (Or.inr ⟨doneTask, rfl, Or.inl rfl⟩)).1⟩

/-- C8 counterexample.  The bookkeeping update at the start of `process`
(tasks.py 119-129) clears the stale error but **resets**
`progress.current` to `0`: a task resumed with `progress.current = 5`
does not keep it. -/
theorem c8_progress_reset_not_preserved :
    (reset_task_bookkeeping ⟨staleTask, s1Articles, []⟩ 10 25).task.error
      = none ∧
    ((reset_task_bookkeeping ⟨staleTask, s1Articles, []⟩ 10 25).task).progress.current = 0 ∧
    staleTask.progress.current = 5 ∧ (0 : Nat) ≠ 5 :=
  ⟨rfl, rfl, rfl, by decide⟩

/-- C8 amended.  At the start of `process` the stale `error` field is
cleared and `progress` is reset to `(articles_to_process, 0)` — the
previously recorded `progress.current` is *not* preserved — while
`remainingArticles` is set to the deferred count; status and stored
results are untouched by this update. -/
theorem c8_error_cleared_progress_zeroed (w : World) (atp total : Nat) :
    (reset_task_bookkeeping w atp total).task.error = none ∧
    (reset_task_bookkeeping w atp total).task.progress = ⟨atp, 0⟩ ∧
    (reset_task_bookkeeping w atp total).task.remainingArticles =
      .count (total - atp) ∧
    (reset_task_bookkeeping w atp total).task.status = w.task.status ∧
    (reset_task_bookkeeping w atp total).results = w.results :=
  ⟨rfl, rfl, rfl, rfl, rfl⟩

/-- C9.  `extract_json` is total and exception-free for every input
string and every behaviour of `json.loads`: both parse attempts catch the
decode error, and whenever the first parse fails and either the brace
boundaries are unusable (`0 <= start < end` fails) or the bracketed
substring fails to parse, the result is the empty dict. -/
theorem c9_extract_json_total (loads : String → Except Unit JVal)
    (content : String) :
    (extract_json loads content).isOk = true ∧
    (∀ e, loads (pyTrim content) = .error e →
      (¬ bracketOk (stripFences (pyTrim content)) ∨
        ∃ e2, loads (bracketSubstr (stripFences (pyTrim content))) =
          .error e2) →
      extract_json loads content = .ok (.jobj [])) := by
  constructor
  · simp only [extract_json]
    cases hl : loads (pyTrim content) with
    | ok j => rfl
    | error u =>
      by_cases hb : bracketOk (stripFences (pyTrim content))
      · rw [if_pos hb]
        cases h2 : loads (bracketSubstr (stripFences (pyTrim content))) with
        | ok j => rfl
        | error v => rfl
      · rw [if_neg hb]
        rfl
  · intro e he hor
    simp only [extract_json, he]
    rcases hor with hb | ⟨e2, h2⟩
    · rw [if_neg hb]
    · by_cases hb : bracketOk (stripFences (pyTrim content))
      · rw [if_pos hb, h2]
      · rw [if_neg hb]

/-- Witness for C9: a fenceless, braceless input under an always-failing
parser comes back as the ok empty dict. -/
theorem c9_extract_json_total_witness :
    (extract_json loadsFail "plain text").isOk = true ∧
    extract_json loadsFail "plain text" = .ok (.jobj []) :=
  ⟨(c9_extract_json_total loadsFail "plain text").1,
   (c9_extract_json_total loadsFail "plain text").2 () rfl
     (Or.inl (by decide))⟩

/-- Behaviour of every iteration of the retry loop, proved by induction on
the remaining iterations: starting from attempt `a` with the loop
invariant `a + fuel = maxRetries + 1`, the loop makes at least one and at
most `maxRetries + 1 - a` further attempts, every attempt it retried after
was a timeout or a 404, and the accumulated sleeps extend `acc` by exactly
the source's back-off for each retried attempt. -/
theorem callGo_spec {β : Type} (handle : β → Except String String)
    (maxRetries : Nat) (oracle : Nat → LLMAttempt β) :
    ∀ fuel a acc, a + fuel = maxRetries + 1 → a ≤ maxRetries →
      a + 1 ≤ (callGo handle maxRetries oracle a fuel acc).attemptsMade ∧
      (callGo handle maxRetries oracle a fuel acc).attemptsMade ≤
        maxRetries + 1 ∧
      (∀ i, a ≤ i →
        i + 1 < (callGo handle maxRetries oracle a fuel acc).attemptsMade →
        retryable (oracle i)) ∧
      (callGo handle maxRetries oracle a fuel acc).sleeps =
        acc ++ (List.range' a
          ((callGo handle maxRetries oracle a fuel acc).attemptsMade - 1 - a)).map
            (fun i => backoffFor (oracle i) i) := by
  intro fuel
  induction fuel with
  | zero => intro a acc h1 h2; omega
  | succ fuel ih =>
    intro a acc h1 h2
    simp only [callGo]
    cases ho : oracle a with
    | timeout =>
      dsimp only
      by_cases ha : a < maxRetries
      · rw [if_pos ha]
        have h1' : a + 1 + fuel = maxRetries + 1 := by omega
        have h2' : a + 1 ≤ maxRetries := ha
        obtain ⟨g1, g2, g3, g4⟩ := ih (a + 1) (acc ++ [1 * (a + 1)]) h1' h2'
        refine ⟨by omega, g2, ?_, ?_⟩
        · intro i hi hi2
          rcases Nat.eq_or_lt_of_le hi with hieq | hilt
          · subst hieq
            exact Or.inl ho
          · exact g3 i hilt hi2
        · rw [g4]
          have hn : (callGo handle maxRetries oracle (a + 1) fuel
              (acc ++ [1 * (a + 1)])).attemptsMade - 1 - a =
              ((callGo handle maxRetries oracle (a + 1) fuel
                (acc ++ [1 * (a + 1)])).attemptsMade - 1 - (a + 1)) + 1 := by
            omega
          rw [hn, List.range'_succ, List.map_cons, List.append_assoc,
            List.singleton_append, ho]
          rfl
      · rw [if_neg ha]
        refine ⟨?_, ?_, ?_, ?_⟩ <;> dsimp only
        · exact le_rfl
        · omega
        · intro i hi hi2
          omega
        · have hz : a + 1 - 1 - a = 0 := by omega
          rw [hz]
          simp
    | resp status body =>
      dsimp only
      by_cases hs : status = 404
      · subst hs
        rw [if_pos rfl]
        by_cases ha : a < maxRetries
        · rw [if_pos ha]
          have h1' : a + 1 + fuel = maxRetries + 1 := by omega
          have h2' : a + 1 ≤ maxRetries := ha
          obtain ⟨g1, g2, g3, g4⟩ := ih (a + 1) (acc ++ [10 * (a + 1)]) h1' h2'
          refine ⟨by omega, g2, ?_, ?_⟩
          · intro i hi hi2
            rcases Nat.eq_or_lt_of_le hi with hieq | hilt
            · subst hieq
              exact Or.inr ⟨body, ho⟩
            · exact g3 i hilt hi2
          · rw [g4]
            have hn : (callGo handle maxRetries oracle (a + 1) fuel
                (acc ++ [10 * (a + 1)])).attemptsMade - 1 - a =
                ((callGo handle maxRetries oracle (a + 1) fuel
                  (acc ++ [10 * (a + 1)])).attemptsMade - 1 - (a + 1)) + 1 := by
              omega
            rw [hn, List.range'_succ, List.map_cons, List.append_assoc,
              List.singleton_append, ho]
            rfl
        · rw [if_neg ha]
          refine ⟨?_, ?_, ?_, ?_⟩ <;> dsimp only
          · exact le_rfl
          · omega
          · intro i hi hi2
            omega
          · have hz : a + 1 - 1 - a = 0 := by omega
            rw [hz]
            simp
      · rw [if_neg hs]
        refine ⟨?_, ?_, ?_, ?_⟩ <;> dsimp only
        · exact le_rfl
        · omega
        · intro i hi hi2
          omega
        · have hz : a + 1 - 1 - a = 0 := by omega
          rw [hz]
          simp

/-- C7 amended.  The request loop makes between 1 and `MAX_RETRIES + 1`
HTTP attempts; **only** a request timeout or a 404 response is ever
retried (any other response — 5xx included — is handled immediately and
its errors propagate on the spot); and the back-off slept before retrying
attempt `i` is `10 * (i + 1)` seconds after a 404 and `1 * (i + 1)`
seconds after a timeout. -/
theorem c7_retry_policy_amended {β : Type} (handle : β → Except String String)
    (maxRetries : Nat) (oracle : Nat → LLMAttempt β) :
    1 ≤ (call_ollama handle maxRetries oracle).attemptsMade ∧
    (call_ollama handle maxRetries oracle).attemptsMade ≤ maxRetries + 1 ∧
    (∀ i, i + 1 < (call_ollama handle maxRetries oracle).attemptsMade →
      retryable (oracle i)) ∧
    (call_ollama handle maxRetries oracle).sleeps =
      (List.range ((call_ollama handle maxRetries oracle).attemptsMade - 1)).map
        (fun i => backoffFor (oracle i) i) := by
  obtain ⟨g1, g2, g3, g4⟩ := callGo_spec handle maxRetries oracle
    (maxRetries + 1) 0 [] (by omega) (by omega)
  refine ⟨g1, g2, fun i hi => g3 i (Nat.zero_le i) hi, ?_⟩
  unfold call_ollama
  rw [g4]
  simp [List.range_eq_range']

/-- Witness for the amended C7: an all-timeout run exhausts exactly
`MAX_RETRIES + 1 = 3` attempts, attempt 0 was retryable, and the sleeps
are `1 * 1` and `1 * 2` seconds. -/
theorem c7_retry_policy_amended_witness :
    1 ≤ (call_ollama handle500 2 oracleTimeout).attemptsMade ∧
    (call_ollama handle500 2 oracleTimeout).attemptsMade ≤ 3 ∧
    retryable (oracleTimeout 0) ∧
    (call_ollama handle500 2 oracleTimeout).sleeps = [1, 2] :=
  ⟨(c7_retry_policy_amended handle500 2 oracleTimeout).1,
   (c7_retry_policy_amended handle500 2 oracleTimeout).2.1,
   (c7_retry_policy_amended handle500 2 oracleTimeout).2.2.1 0 (by decide),
   by rw [(c7_retry_policy_amended handle500 2 oracleTimeout).2.2.2]; rfl⟩

/-- Looking an article's id up in the decision map `screenAll` built for a
batch containing it yields that id's decision. -/
theorem lookup_map_id (d : String → Decision) :
    ∀ (l : List Article) (a : Article), a ∈ l →
      List.lookup a.id (l.map (fun b => (b.id, d b.id))) = some (d a.id) := by
  intro l
  induction l with
  | nil => intro a ha; cases ha
  | cons b t ih =>
    intro a ha
    simp only [List.map_cons, List.lookup]
    by_cases hab : (a.id == b.id) = true
    · have hid : a.id = b.id := eq_of_beq hab
      rw [hab, hid]
    · rw [Bool.not_eq_true] at hab
      rw [hab]
      rcases List.mem_cons.mp ha with heq | hmem
      · subst heq
        rw [beq_self_eq_true] at hab
        cases hab
      · exact ih a hmem

/-- When every element of `sub` has a decision in the map `m`, the
`filterMap` the loop performs over a batch keeps every article, paired
with its decision. -/
theorem filterMap_lookup_map (d : String → Decision)
    (m : List (String × Decision)) :
    ∀ (sub : List Article),
      (∀ a ∈ sub, List.lookup a.id m = some (d a.id)) →
      sub.filterMap (fun a => (List.lookup a.id m).map (fun v => (a, v))) =
        sub.map (fun a => (a, d a.id)) := by
  intro sub
  induction sub with
  | nil => intro _; rfl
  | cons b t ih =>
    intro hall
    rw [List.filterMap_cons, hall b (List.mem_cons_self b t)]
    simp only [Option.map_some']
    rw [List.map_cons, ih (fun a ha => hall a (List.mem_cons_of_mem b ha))]

/-- Dropping as many elements as a `take n` returned is dropping `n`. -/
theorem drop_take_length {α : Type} (l : List α) (n : Nat) :
    l.drop (l.take n).length = l.drop n := by
  rcases le_total n l.length with h | h
  · rw [List.length_take, min_eq_left h]
  · rw [List.length_take, min_eq_right h, List.drop_length,
      List.drop_eq_nil_of_le h]

/-- The batch loop under an oracle that decides every article: starting in
sync (`progress.current = total_processed`), holding the lock, in status
`running`, with enough fuel, the loop processes every remaining article in
order — upserting one result per article and ending with
`progress.current = |articles|`. -/
theorem processLoop_screenAll (d : String → Decision)
    (articles : List Article) (lockId : String) :
    ∀ fuel tp w,
      w.task.processingLock = some lockId →
      w.task.status = .running →
      w.task.progress.current = tp →
      tp ≤ articles.length →
      articles.length - tp < fuel →
      processLoop (screenAll d) articles lockId fuel tp 0 w =
        .finished articles.length
          { task := { w.task with progress :=
              ⟨w.task.progress.total, articles.length⟩ },
            articles := w.articles,
            results := (articles.drop tp).foldl
              (fun rs a => upsert rs (mkDoc a (d a.id))) w.results } := by
  intro fuel
  induction fuel with
  | zero => intro tp w _ _ _ hle hf; omega
  | succ fuel ih =>
    intro tp w hlock hstat hcur hle hf
    simp only [processLoop]
    by_cases hdone : articles.length ≤ tp
    · rw [if_pos hdone]
      have htp : tp = articles.length := le_antisymm hle hdone
      subst htp
      rw [List.drop_length, ← hcur]
      rfl
    · rw [if_neg hdone]
      have hlt : tp < articles.length := not_le.mp hdone
      rw [if_neg (by simp [hlock])]
      rw [if_neg (by simp [hstat])]
      simp only [screenAll]
      have hbatchlen : ((articles.drop tp).take BATCH_SIZE).length =
          min BATCH_SIZE (articles.length - tp) := by
        rw [List.length_take, List.length_drop]
      have hbpos : 0 < ((articles.drop tp).take BATCH_SIZE).length := by
        rw [hbatchlen, BATCH_SIZE]
        omega
      have hble : ((articles.drop tp).take BATCH_SIZE).length ≤
          articles.length - tp := by
        rw [hbatchlen]
        omega
      obtain ⟨a0, t0, hcons⟩ :=
        List.exists_cons_of_ne_nil (List.ne_nil_of_length_pos hbpos)
      have hm : ((((articles.drop tp).take BATCH_SIZE).map
          (fun a => (a.id, d a.id))).isEmpty) = false := by
        rw [hcons]
        rfl
      rw [if_neg (by rw [hm]; exact Bool.false_ne_true)]
      have hdec : ((articles.drop tp).take BATCH_SIZE).filterMap
          (fun a => (List.lookup a.id (((articles.drop tp).take BATCH_SIZE).map
            (fun b => (b.id, d b.id)))).map (fun v => (a, v))) =
          ((articles.drop tp).take BATCH_SIZE).map (fun a => (a, d a.id)) :=
        filterMap_lookup_map d _ _
          (fun a ha => lookup_map_id d _ a ha)
      rw [hdec]
      rw [List.length_map]
      rw [if_neg (by rw [hcur]; omega)]
      refine (ih _ _ ?hl ?hs ?hc ?h1 ?h2).trans ?_
      case hl => exact hlock
      case hs => exact hstat
      case hc => rfl
      case h1 => omega
      case h2 => omega
      have hsplit : articles.drop
          (tp + ((articles.drop tp).take BATCH_SIZE).length) =
          (articles.drop tp).drop BATCH_SIZE := by
        rw [← List.drop_drop, drop_take_length]
      rw [hsplit]
      rw [List.foldl_map]
      dsimp only
      rw [← List.foldl_append]
      rw [List.take_append_drop]

/-- C4 amended.  For any freshly attached task that `process` drives from
`running` to `paused` (every batch screened successfully and more articles
attached than `ARTICLE_LIMIT`), the final progress is
`(min(ARTICLE_LIMIT, |articles|), min(ARTICLE_LIMIT, |articles|))` — the
cap is enforced — but `remainingArticles` is set to the **count** of the
deferred articles, not to the list of their ids. -/
theorem c4_cap_enforced_remaining_is_count (d : String → Decision)
    (lockId : String) (now : Nat) (t : TaskDoc) (A : List Article)
    (hrun : t.status = .running) (hlock : t.processingLock = none)
    (hcap : ARTICLE_LIMIT < A.length) :
    (process (screenAll d) lockId now (⟨t, A, []⟩ : World)).map
        (fun w => (w.task.status, w.task.progress, w.task.remainingArticles)) =
      some (TaskStatus.paused,
        ⟨min ARTICLE_LIMIT A.length, min ARTICLE_LIMIT A.length⟩,
        RemVal.count (A.length - ARTICLE_LIMIT)) := by
  have hmin : min A.length ARTICLE_LIMIT = ARTICLE_LIMIT :=
    min_eq_right (le_of_lt hcap)
  unfold process
  have hacq : acquire_task_lock (⟨t, A, []⟩ : World) lockId now =
      some (World.mk { t with processingLock := some lockId, processingStartedAt := some now } A []) := by
    unfold acquire_task_lock
    rw [if_pos ⟨hrun, hlock⟩]
  rw [hacq]
  dsimp only
  rw [if_neg (by simp [hrun])]
  rw [if_neg (by omega)]
  rw [hmin]
  rw [processLoop_screenAll d (A.take ARTICLE_LIMIT) lockId
    ((A.take ARTICLE_LIMIT).length + MAX_RETRIES + 2) 0
    (reset_task_bookkeeping
      (World.mk { t with processingLock := some lockId, processingStartedAt := some now } A [])
      ARTICLE_LIMIT A.length)
    rfl hrun rfl (Nat.zero_le _) (by omega)]
  dsimp only
  rw [if_pos (by omega : 0 < A.length - ARTICLE_LIMIT)]
  simp [release_task_lock, reset_task_bookkeeping, List.length_take,
    Nat.min_comm, min_eq_left (le_of_lt hcap)]

/-- Witness for the amended C4 at the S1 scenario: 25 articles, cap 10,
final progress `(10, 10)` and `remainingArticles = count 15`. -/
theorem c4_cap_enforced_remaining_is_count_witness :
    (process (screenAll dIncl) "L" 99 s1World).map
        (fun w => (w.task.status, w.task.progress, w.task.remainingArticles)) =
      some (TaskStatus.paused,
        ⟨min ARTICLE_LIMIT s1Articles.length, min ARTICLE_LIMIT s1Articles.length⟩,
        RemVal.count (s1Articles.length - ARTICLE_LIMIT)) :=
  c4_cap_enforced_remaining_is_count dIncl "L" 99 s1Task s1Articles
    rfl rfl (by decide)

end Screening
